import Mathlib

/- Verification development for the BNB arbitrage agent: the decision engine
(agents/decision_agent.py) and the execution safety layer
(agents/execution_agent.py), shallowly embedded.  Python floats are modelled
as exact rationals; Python int() truncation toward zero is pyInt; Python
dict.get over the small literal tables is an if chain or an association
list, exactly as the tables appear in the source. -/

/-- Python int() applied to a numeric value: truncation toward zero. -/
def pyInt (q : ℚ) : ℤ := if 0 ≤ q then ⌊q⌋ else ⌈q⌉

/-- Python str.upper() restricted to the ASCII token symbols used here. -/
def strUpper (s : String) : String := String.mk (s.data.map Char.toUpper)

/-- Python str.lower() restricted to the ASCII hex addresses used here. -/
def strLower (s : String) : String := String.mk (s.data.map Char.toLower)

/-- Lookup in a Python dict literal modelled as an association list
(dict.get(key) returning None on a miss). -/
def dictGet (m : List (String × String)) (k : String) : Option String :=
  match m with
  | [] => none
  | (a, b) :: rest => if a = k then some b else dictGet rest k

/-- The function _compute_confidence of agents/decision_agent.py lines 49 to 73.
base is int() of the float sum of the sentiment, price and bonus terms; the
phase and risk adjustments come from the two dict literals with default 0;
the result is clamped to [0, 100] by max 0 (min 100 _). -/
def compute_confidence (signal price_diff : ℚ) (urgency : String)
    (arb_opportunity : Bool) (phase risk_level : String) : ℤ :=
  let base : ℤ := pyInt
    ((|signal| * 40)
      + (price_diff * 1000)
      + (if urgency = "HIGH" then 20 else if urgency = "MEDIUM" then 10 else 0)
      + (if arb_opportunity then 10 else 0))
  let phaseAdj : ℤ :=
    if phase = "MOMENTUM_BUILDING" then 20
    else if phase = "ACCUMULATION_PHASE" then 15
    else if phase = "DISTRIBUTION_PHASE" then -25
    else if phase = "VOLATILITY_SPIKE_INCOMING" then 10
    else 0
  let riskAdj : ℤ :=
    if risk_level = "HIGH" then -10 else if risk_level = "LOW" then 5 else 0
  max 0 (min 100 (base + phaseAdj + riskAdj))

/-- The function _determine_action of agents/decision_agent.py lines 76 to 85
(the signal argument is accepted and unused, as in the source). -/
def determine_action (arb_confirmed : Bool) (confidence : ℤ) (signal : ℚ)
    (risk_level : String) : String :=
  if risk_level = "HIGH" ∧ confidence < 60 then "HOLD"
  else if arb_confirmed = false ∨ confidence < 20 then "HOLD"
  else if 60 ≤ confidence then "EXECUTE_TRADE"
  else if 30 ≤ confidence then "PAPER_TRADE"
  else "MONITOR"

/-- The price difference and direction computation of
DecisionAgent.evaluate_with_intelligence, agents/decision_agent.py lines
125 to 129: both values start at 0 and NONE and are only set when both
prices are strictly positive. -/
def priceDiffDirection (cex_price dex_price : ℚ) : ℚ × String :=
  if 0 < cex_price ∧ 0 < dex_price then
    (|cex_price - dex_price| / cex_price,
      if dex_price < cex_price then "BUY_DEX_SELL_CEX" else "BUY_CEX_SELL_DEX")
  else (0, "NONE")

/-- First disjunct of the arb_confirmed expression, decision_agent.py lines
146 to 151: sentiment and price thresholds both exceeded. -/
def gateCond1 (signal price_diff sentiment_threshold price_diff_threshold : ℚ) : Bool :=
  decide (sentiment_threshold < |signal|) && decide (price_diff_threshold < price_diff)

/-- Second disjunct: upstream arbitrage flag corroborated by confidence
strictly above 30. -/
def gateCond2 (arb_opportunity : Bool) (confidence : ℤ) : Bool :=
  arb_opportunity && decide ((30 : ℤ) < confidence)

/-- Third disjunct: raw price gap above 0.005 with a known DEX price. -/
def gateCond3 (price_diff dex_price : ℚ) : Bool :=
  decide ((1 : ℚ) / 200 < price_diff) && decide ((0 : ℚ) < dex_price)

/-- Fourth disjunct: momentum phase with a price gap above 0.003. -/
def gateCond4 (phase : String) (price_diff : ℚ) : Bool :=
  decide (phase = "MOMENTUM_BUILDING") && decide ((3 : ℚ) / 1000 < price_diff)

/-- The arb_confirmed expression of decision_agent.py lines 146 to 151: the
disjunction of the four trigger conditions. -/
def arbConfirmedGate (signal price_diff : ℚ) (arb_opportunity : Bool)
    (confidence : ℤ) (phase : String)
    (dex_price sentiment_threshold price_diff_threshold : ℚ) : Bool :=
  gateCond1 signal price_diff sentiment_threshold price_diff_threshold
    || gateCond2 arb_opportunity confidence
    || gateCond3 price_diff dex_price
    || gateCond4 phase price_diff

/-- Output record of the decision pipeline core: derived price fields,
score, gate verdict and selected action. -/
structure DecisionOutcome where
  price_diff : ℚ
  direction : String
  confidence : ℤ
  arb_confirmed : Bool
  action : String
deriving DecidableEq

/-- Core of DecisionAgent.evaluate_with_intelligence, decision_agent.py lines
116 to 153, after the network fetches and text parsing delivered their
values: price diff and direction, then confidence, then the gate, then the
action.  The two thresholds are the Config values sentiment_threshold and
price_diff_threshold. -/
def evaluateCore (final_signal cex_price dex_price : ℚ) (urgency : String)
    (arb_opportunity : Bool) (phase risk_level : String)
    (sentiment_threshold price_diff_threshold : ℚ) : DecisionOutcome :=
  let pd := priceDiffDirection cex_price dex_price
  let confidence :=
    compute_confidence final_signal pd.1 urgency arb_opportunity phase risk_level
  let confirmed :=
    arbConfirmedGate final_signal pd.1 arb_opportunity confidence phase
      dex_price sentiment_threshold price_diff_threshold
  let action := determine_action confirmed confidence final_signal risk_level
  ⟨pd.1, pd.2, confidence, confirmed, action⟩

/-- ConfidenceScorer as the words of spec section 4.1 state it, for
comparison: result = clamp(round(adjusted), 0, 100) with adjusted the exact
sum of the base terms and the phase and risk bonuses. -/
def specConfidenceRound (sentiment price_diff : ℚ) (urgency : String)
    (arb_opportunity : Bool) (phase risk_level : String) : ℤ :=
  let urgencyBonus : ℚ :=
    if urgency = "HIGH" then 20 else if urgency = "MEDIUM" then 10 else 0
  let phaseBonus : ℚ :=
    if phase = "MOMENTUM_BUILDING" then 20
    else if phase = "ACCUMULATION_PHASE" then 15
    else if phase = "DISTRIBUTION_PHASE" then -25
    else if phase = "VOLATILITY_SPIKE_INCOMING" then 10
    else 0
  let riskBonus : ℚ :=
    if risk_level = "HIGH" then -10 else if risk_level = "LOW" then 5 else 0
  let base : ℚ := |sentiment| * 40 + price_diff * 1000 + urgencyBonus
    + (if arb_opportunity then 10 else 0)
  let adjusted : ℚ := base + phaseBonus + riskBonus
  max 0 (min 100 (round adjusted))

/-- ConfidenceScorer as amended: the four base terms are summed exactly and
truncated toward zero by int(); the integer phase and risk bonuses are added
after the truncation; the result is clamped to [0, 100]. -/
def specConfidenceTrunc (sentiment price_diff : ℚ) (urgency : String)
    (arb_opportunity : Bool) (phase risk_level : String) : ℤ :=
  let urgencyBonus : ℚ :=
    if urgency = "HIGH" then 20 else if urgency = "MEDIUM" then 10 else 0
  let phaseBonus : ℤ :=
    if phase = "MOMENTUM_BUILDING" then 20
    else if phase = "ACCUMULATION_PHASE" then 15
    else if phase = "DISTRIBUTION_PHASE" then -25
    else if phase = "VOLATILITY_SPIKE_INCOMING" then 10
    else 0
  let riskBonus : ℤ :=
    if risk_level = "HIGH" then -10 else if risk_level = "LOW" then 5 else 0
  let base : ℤ := pyInt (|sentiment| * 40 + price_diff * 1000 + urgencyBonus
    + (if arb_opportunity then 10 else 0))
  max 0 (min 100 (base + phaseBonus + riskBonus))

/-- C5: for every input (any sentiment, any price difference, any urgency
string, any flag, any phase string, any risk string) the confidence scorer
returns an integer in [0, 100]. -/
theorem confidence_score_in_bounds (signal price_diff : ℚ) (urgency : String)
    (arb_opportunity : Bool) (phase risk_level : String) :
    0 ≤ compute_confidence signal price_diff urgency arb_opportunity phase risk_level ∧
    compute_confidence signal price_diff urgency arb_opportunity phase risk_level ≤ 100 := by
  unfold compute_confidence
  refine ⟨le_max_left _ _, max_le (by norm_num) (min_le_left _ _)⟩

/-- C6 counterexample: at sentiment 1/64 (float 0.015625, exactly
representable, whose base sum is 0.625) the code truncates to 0 while the
specified clamp(round(adjusted)) gives 1, so the claimed formula with
rounding does not match the code. -/
theorem confidence_round_formula_counterexample :
    compute_confidence (1/64) 0 "LOW" false "UNKNOWN" "MEDIUM" = 0 ∧
    specConfidenceRound (1/64) 0 "LOW" false "UNKNOWN" "MEDIUM" = 1 ∧
    compute_confidence (1/64) 0 "LOW" false "UNKNOWN" "MEDIUM" ≠
      specConfidenceRound (1/64) 0 "LOW" false "UNKNOWN" "MEDIUM" := by
  have h1 : compute_confidence (1/64) 0 "LOW" false "UNKNOWN" "MEDIUM" = 0 := by
    norm_num +decide [compute_confidence, pyInt,
      abs_of_nonneg (show (0:ℚ) ≤ 1/64 by norm_num)]
  have h2 : specConfidenceRound (1/64) 0 "LOW" false "UNKNOWN" "MEDIUM" = 1 := by
    norm_num +decide [specConfidenceRound, round_eq,
      abs_of_nonneg (show (0:ℚ) ≤ 1/64 by norm_num)]
  exact ⟨h1, h2, by rw [h1, h2]; decide⟩

/-- C6 as amended: the scorer equals the claimed fixed-weight formula with
the bonus tables exactly as listed, except that the base sum is truncated
toward zero by int() before the integer phase and risk bonuses are added,
instead of the whole adjusted value being rounded to nearest. -/
theorem confidence_equals_trunc_formula (signal price_diff : ℚ)
    (urgency : String) (arb_opportunity : Bool) (phase risk_level : String) :
    compute_confidence signal price_diff urgency arb_opportunity phase risk_level =
      specConfidenceTrunc signal price_diff urgency arb_opportunity phase risk_level := rfl

/-- C7: with both prices positive the price difference is the absolute gap
divided by the CEX price and the direction compares the two prices (DEX
below CEX means BUY_DEX_SELL_CEX, DEX at or above CEX means
BUY_CEX_SELL_DEX); 600 versus 591 gives the fraction 3/200, that is 1.5
percent, with direction BUY_DEX_SELL_CEX; and whenever either price is 0
the pair degrades to 0 and NONE. -/
theorem price_diff_and_direction (cex dex cz dz : ℚ)
    (hc : 0 < cex) (hd : 0 < dex) (hz : cz = 0 ∨ dz = 0) :
    (priceDiffDirection cex dex).1 = |cex - dex| / cex ∧
    (dex < cex → (priceDiffDirection cex dex).2 = "BUY_DEX_SELL_CEX") ∧
    (cex ≤ dex → (priceDiffDirection cex dex).2 = "BUY_CEX_SELL_DEX") ∧
    priceDiffDirection cz dz = (0, "NONE") ∧
    priceDiffDirection 600 591 = (3/200, "BUY_DEX_SELL_CEX") := by
  have hpos : priceDiffDirection cex dex =
      (|cex - dex| / cex,
        if dex < cex then "BUY_DEX_SELL_CEX" else "BUY_CEX_SELL_DEX") := by
    unfold priceDiffDirection
    exact if_pos ⟨hc, hd⟩
  refine ⟨by rw [hpos], ?_, ?_, ?_, ?_⟩
  · intro hlt
    rw [hpos]
    simp only [if_pos hlt]
  · intro hge
    rw [hpos]
    simp only [if_neg (not_lt.mpr hge)]
  · have hno : ¬(0 < cz ∧ 0 < dz) := by
      rcases hz with h | h <;> subst h
      · intro hco
        exact lt_irrefl 0 hco.1
      · intro hco
        exact lt_irrefl 0 hco.2
    unfold priceDiffDirection
    rw [if_neg hno]
  · unfold priceDiffDirection
    rw [if_pos (by norm_num)]
    rw [if_pos (by norm_num : (591:ℚ) < 600)]
    rw [abs_of_nonneg (by norm_num : (0:ℚ) ≤ 600 - 591)]
    norm_num

/-- C7 witness: the theorem applied at cex 600, dex 591 and the zero pair
(0, 5). -/
theorem price_diff_and_direction_witness :
    (0:ℚ) < 600 ∧ (0:ℚ) < 591 ∧ ((0:ℚ) = 0 ∨ (5:ℚ) = 0) ∧
    ((priceDiffDirection 600 591).1 = |(600:ℚ) - 591| / 600 ∧
      ((591:ℚ) < 600 → (priceDiffDirection 600 591).2 = "BUY_DEX_SELL_CEX") ∧
      ((600:ℚ) ≤ 591 → (priceDiffDirection 600 591).2 = "BUY_CEX_SELL_DEX") ∧
      priceDiffDirection 0 5 = (0, "NONE") ∧
      priceDiffDirection 600 591 = (3/200, "BUY_DEX_SELL_CEX")) :=
  ⟨by norm_num, by norm_num, Or.inl rfl,
    price_diff_and_direction 600 591 0 5 (by norm_num) (by norm_num) (Or.inl rfl)⟩

/-- C8: the gate is the disjunction of the four conditions: whenever all
four are false the gate does not confirm, and for each of the four
conditions there is an input where that condition alone holds (the other
three false) and the gate confirms.  Thresholds in the concrete inputs are
the Config defaults, sentiment 3/10 and price diff 1/200. -/
theorem arb_gate_or_of_four (signal price_diff : ℚ) (arb_opportunity : Bool)
    (confidence : ℤ) (phase : String) (dex sThr pThr : ℚ)
    (h1 : gateCond1 signal price_diff sThr pThr = false)
    (h2 : gateCond2 arb_opportunity confidence = false)
    (h3 : gateCond3 price_diff dex = false)
    (h4 : gateCond4 phase price_diff = false) :
    arbConfirmedGate signal price_diff arb_opportunity confidence phase dex sThr pThr = false ∧
    (gateCond1 (1/2) (1/100) (3/10) (1/200) = true ∧
      gateCond2 false 0 = false ∧ gateCond3 (1/100) 0 = false ∧
      gateCond4 "UNKNOWN" (1/100) = false ∧
      arbConfirmedGate (1/2) (1/100) false 0 "UNKNOWN" 0 (3/10) (1/200) = true) ∧
    (gateCond2 true 40 = true ∧
      gateCond1 0 0 (3/10) (1/200) = false ∧ gateCond3 0 0 = false ∧
      gateCond4 "UNKNOWN" 0 = false ∧
      arbConfirmedGate 0 0 true 40 "UNKNOWN" 0 (3/10) (1/200) = true) ∧
    (gateCond3 (3/500) 1 = true ∧
      gateCond1 0 (3/500) (3/10) (1/200) = false ∧ gateCond2 false 0 = false ∧
      gateCond4 "UNKNOWN" (3/500) = false ∧
      arbConfirmedGate 0 (3/500) false 0 "UNKNOWN" 1 (3/10) (1/200) = true) ∧
    (gateCond4 "MOMENTUM_BUILDING" (1/250) = true ∧
      gateCond1 0 (1/250) (3/10) (1/200) = false ∧ gateCond2 false 0 = false ∧
      gateCond3 (1/250) 0 = false ∧
      arbConfirmedGate 0 (1/250) false 0 "MOMENTUM_BUILDING" 0 (3/10) (1/200) = true) := by
  have habs0 : |(0:ℚ)| = 0 := abs_zero
  refine ⟨?_, ?_, ?_, ?_, ?_⟩
  · unfold arbConfirmedGate
    rw [h1, h2, h3, h4]
    rfl
  · refine ⟨?_, ?_, ?_, ?_, ?_⟩ <;>
      norm_num +decide [arbConfirmedGate, gateCond1, gateCond2, gateCond3, gateCond4,
        abs_of_nonneg (show (0:ℚ) ≤ 1/2 by norm_num)]
  · refine ⟨?_, ?_, ?_, ?_, ?_⟩ <;>
      norm_num +decide [arbConfirmedGate, gateCond1, gateCond2, gateCond3, gateCond4, habs0]
  · refine ⟨?_, ?_, ?_, ?_, ?_⟩ <;>
      norm_num +decide [arbConfirmedGate, gateCond1, gateCond2, gateCond3, gateCond4, habs0]
  · refine ⟨?_, ?_, ?_, ?_, ?_⟩ <;>
      norm_num +decide [arbConfirmedGate, gateCond1, gateCond2, gateCond3, gateCond4, habs0]

/-- C8 witness: the theorem applied at the all-false input with sentiment 0,
price diff 0, no flag, confidence 0, unknown phase, DEX price 0 and the
default thresholds; the four discharged hypotheses are restated first and
the full conclusion follows from the theorem. -/
theorem arb_gate_or_of_four_witness :
    gateCond1 0 0 (3/10) (1/200) = false ∧
    gateCond2 false 0 = false ∧
    gateCond3 0 0 = false ∧
    gateCond4 "UNKNOWN" 0 = false ∧
    (arbConfirmedGate 0 0 false 0 "UNKNOWN" 0 (3/10) (1/200) = false ∧
    (gateCond1 (1/2) (1/100) (3/10) (1/200) = true ∧
      gateCond2 false 0 = false ∧ gateCond3 (1/100) 0 = false ∧
      gateCond4 "UNKNOWN" (1/100) = false ∧
      arbConfirmedGate (1/2) (1/100) false 0 "UNKNOWN" 0 (3/10) (1/200) = true) ∧
    (gateCond2 true 40 = true ∧
      gateCond1 0 0 (3/10) (1/200) = false ∧ gateCond3 0 0 = false ∧
      gateCond4 "UNKNOWN" 0 = false ∧
      arbConfirmedGate 0 0 true 40 "UNKNOWN" 0 (3/10) (1/200) = true) ∧
    (gateCond3 (3/500) 1 = true ∧
      gateCond1 0 (3/500) (3/10) (1/200) = false ∧ gateCond2 false 0 = false ∧
      gateCond4 "UNKNOWN" (3/500) = false ∧
      arbConfirmedGate 0 (3/500) false 0 "UNKNOWN" 1 (3/10) (1/200) = true) ∧
    (gateCond4 "MOMENTUM_BUILDING" (1/250) = true ∧
      gateCond1 0 (1/250) (3/10) (1/200) = false ∧ gateCond2 false 0 = false ∧
      gateCond3 (1/250) 0 = false ∧
      arbConfirmedGate 0 (1/250) false 0 "MOMENTUM_BUILDING" 0 (3/10) (1/200) = true)) := by
  have h1 : gateCond1 0 0 (3/10) (1/200) = false := by
    norm_num +decide [gateCond1, abs_zero]
  have h2 : gateCond2 false 0 = false := by
    norm_num [gateCond2]
  have h3 : gateCond3 0 0 = false := by
    norm_num [gateCond3]
  have h4 : gateCond4 "UNKNOWN" 0 = false := by
    norm_num +decide [gateCond4]
  exact ⟨h1, h2, h3, h4, arb_gate_or_of_four 0 0 false 0 "UNKNOWN" 0 (3/10) (1/200) h1 h2 h3 h4⟩

/-- C9 counterexample: the end-to-end scenario (sentiment 2/5, CEX 600, DEX
591, phase MOMENTUM_BUILDING, risk LOW, urgency LOW, flag false, default
thresholds 3/10 and 1/200) yields confidence 56, which is below 60, and
action PAPER_TRADE rather than EXECUTE_TRADE: base is int(16 + 15) = 31 and
the momentum and low risk bonuses add 25. -/
theorem scenario1_counterexample :
    (evaluateCore (2/5) 600 591 "LOW" false "MOMENTUM_BUILDING" "LOW" (3/10) (1/200)).confidence = 56 ∧
    ¬ (60 ≤ (evaluateCore (2/5) 600 591 "LOW" false "MOMENTUM_BUILDING" "LOW" (3/10) (1/200)).confidence) ∧
    (evaluateCore (2/5) 600 591 "LOW" false "MOMENTUM_BUILDING" "LOW" (3/10) (1/200)).action ≠ "EXECUTE_TRADE" := by
  have hpd : priceDiffDirection 600 591 = (3/200, "BUY_DEX_SELL_CEX") := by
    unfold priceDiffDirection
    rw [if_pos (by norm_num)]
    rw [if_pos (by norm_num : (591:ℚ) < 600)]
    rw [abs_of_nonneg (by norm_num : (0:ℚ) ≤ 600 - 591)]
    norm_num
  have hconf : compute_confidence (2/5) (3/200) "LOW" false "MOMENTUM_BUILDING" "LOW" = 56 := by
    norm_num +decide [compute_confidence, pyInt,
      abs_of_nonneg (show (0:ℚ) ≤ 2/5 by norm_num)]
  have hcore : evaluateCore (2/5) 600 591 "LOW" false "MOMENTUM_BUILDING" "LOW" (3/10) (1/200) =
      ⟨3/200, "BUY_DEX_SELL_CEX", 56,
        arbConfirmedGate (2/5) (3/200) false 56 "MOMENTUM_BUILDING" 591 (3/10) (1/200),
        determine_action
          (arbConfirmedGate (2/5) (3/200) false 56 "MOMENTUM_BUILDING" 591 (3/10) (1/200))
          56 (2/5) "LOW"⟩ := by
    unfold evaluateCore
    rw [hpd]
    dsimp only
    rw [hconf]
  have hgate : arbConfirmedGate (2/5) (3/200) false 56 "MOMENTUM_BUILDING" 591 (3/10) (1/200) = true := by
    norm_num +decide [arbConfirmedGate, gateCond1, gateCond2, gateCond3, gateCond4,
      abs_of_nonneg (show (0:ℚ) ≤ 2/5 by norm_num)]
  have hact : determine_action true 56 (2/5) "LOW" = "PAPER_TRADE" := by
    unfold determine_action
    rw [if_neg (by
      intro hco
      exact absurd hco.1 (by decide))]
    rw [if_neg (by
      intro hco
      rcases hco with hco | hco
      · exact absurd hco (by decide)
      · exact absurd hco (by decide))]
    rw [if_neg (by decide)]
    rw [if_pos (by decide)]
  rw [hcore, hgate, hact]
  refine ⟨rfl, by decide, by decide⟩

/-- C9 as amended: the same scenario produces confidence 56 (at least 30 and
below 60), arb_confirmed true, direction BUY_DEX_SELL_CEX, and action
PAPER_TRADE. -/
theorem scenario1_amended :
    (evaluateCore (2/5) 600 591 "LOW" false "MOMENTUM_BUILDING" "LOW" (3/10) (1/200)).confidence = 56 ∧
    (evaluateCore (2/5) 600 591 "LOW" false "MOMENTUM_BUILDING" "LOW" (3/10) (1/200)).arb_confirmed = true ∧
    (evaluateCore (2/5) 600 591 "LOW" false "MOMENTUM_BUILDING" "LOW" (3/10) (1/200)).direction = "BUY_DEX_SELL_CEX" ∧
    (evaluateCore (2/5) 600 591 "LOW" false "MOMENTUM_BUILDING" "LOW" (3/10) (1/200)).action = "PAPER_TRADE" := by
  have hpd : priceDiffDirection 600 591 = (3/200, "BUY_DEX_SELL_CEX") := by
    unfold priceDiffDirection
    rw [if_pos (by norm_num)]
    rw [if_pos (by norm_num : (591:ℚ) < 600)]
    rw [abs_of_nonneg (by norm_num : (0:ℚ) ≤ 600 - 591)]
    norm_num
  have hconf : compute_confidence (2/5) (3/200) "LOW" false "MOMENTUM_BUILDING" "LOW" = 56 := by
    norm_num +decide [compute_confidence, pyInt,
      abs_of_nonneg (show (0:ℚ) ≤ 2/5 by norm_num)]
  have hgate : arbConfirmedGate (2/5) (3/200) false 56 "MOMENTUM_BUILDING" 591 (3/10) (1/200) = true := by
    norm_num +decide [arbConfirmedGate, gateCond1, gateCond2, gateCond3, gateCond4,
      abs_of_nonneg (show (0:ℚ) ≤ 2/5 by norm_num)]
  have hact : determine_action true 56 (2/5) "LOW" = "PAPER_TRADE" := by
    unfold determine_action
    rw [if_neg (by
      intro hco
      exact absurd hco.1 (by decide))]
    rw [if_neg (by
      intro hco
      rcases hco with hco | hco
      · exact absurd hco (by decide)
      · exact absurd hco (by decide))]
    rw [if_neg (by decide)]
    rw [if_pos (by decide)]
  have hcore : evaluateCore (2/5) 600 591 "LOW" false "MOMENTUM_BUILDING" "LOW" (3/10) (1/200) =
      ⟨3/200, "BUY_DEX_SELL_CEX", 56,
        arbConfirmedGate (2/5) (3/200) false 56 "MOMENTUM_BUILDING" 591 (3/10) (1/200),
        determine_action
          (arbConfirmedGate (2/5) (3/200) false 56 "MOMENTUM_BUILDING" 591 (3/10) (1/200))
          56 (2/5) "LOW"⟩ := by
    unfold evaluateCore
    rw [hpd]
    dsimp only
    rw [hconf]
  rw [hcore]
  rw [hgate, hact]
  exact ⟨rfl, rfl, rfl, rfl⟩

/-- State of the CircuitBreaker of agents/execution_agent.py lines 138 to
178: the failure counter, the open flag and the trip timestamp.  Timestamps
are naturals; the cooldown timedelta is a natural added to a timestamp. -/
structure CBState where
  failures : ℕ
  is_open : Bool
  tripped_at : Option ℕ
deriving DecidableEq

/-- Constructor state: 0 failures, closed, no trip time. -/
def CBState.init : CBState := ⟨0, false, none⟩

/-- CircuitBreaker.record_success: reset the counter, close, clear the trip
time (the previous state is ignored). -/
def record_success (_s : CBState) : CBState := CBState.init

/-- CircuitBreaker.record_failure at time now: increment the counter and trip
(open, stamp now) once the counter reaches max_failures. -/
def record_failure (max_failures now : ℕ) (s : CBState) : CBState :=
  let f := s.failures + 1
  if max_failures ≤ f then ⟨f, true, some now⟩ else ⟨f, s.is_open, s.tripped_at⟩

/-- CircuitBreaker.allow_trade at time now: closed answers true unchanged;
open with the cooldown strictly elapsed resets to the initial state and
answers true; open otherwise answers false unchanged.  The open state with
no trip time answers false here; in the source that state is unreachable
(the line computing the remaining cooldown would raise on None). -/
def allow_trade (cooldown now : ℕ) (s : CBState) : Bool × CBState :=
  if s.is_open = false then (true, s)
  else
    match s.tripped_at with
    | some t => if t + cooldown < now then (true, CBState.init) else (false, s)
    | none => (false, s)

/-- Reachable breaker states: the constructor state closed under the three
public operations called at arbitrary times. -/
inductive CBReach (max_failures cooldown : ℕ) : CBState → Prop
  | init : CBReach max_failures cooldown CBState.init
  | fail (now : ℕ) {s : CBState} :
      CBReach max_failures cooldown s →
      CBReach max_failures cooldown (record_failure max_failures now s)
  | succ {s : CBState} :
      CBReach max_failures cooldown s →
      CBReach max_failures cooldown (record_success s)
  | allow (now : ℕ) {s : CBState} :
      CBReach max_failures cooldown s →
      CBReach max_failures cooldown (allow_trade cooldown now s).2

/-- A sequence of record_failure calls at the listed times. -/
def failN (max_failures : ℕ) (times : List ℕ) (s : CBState) : CBState :=
  times.foldl (fun st t => record_failure max_failures t st) s

theorem failN_cons (max_failures t : ℕ) (ts : List ℕ) (s : CBState) :
    failN max_failures (t :: ts) s = failN max_failures ts (record_failure max_failures t s) := rfl

theorem failN_replicate_trips : ∀ (n k max_f now : ℕ), k + n = max_f → 1 ≤ n →
    failN max_f (List.replicate n now) ⟨k, false, none⟩ = ⟨max_f, true, some now⟩ := by
  intro n
  induction n with
  | zero =>
    intro k max_f now _ h1
    exact absurd h1 (by decide)
  | succ n ih =>
    intro k max_f now hsum _
    rw [List.replicate_succ, failN_cons]
    rcases Nat.eq_zero_or_pos n with hn | hn
    · subst hn
      have hstep : record_failure max_f now ⟨k, false, none⟩ = ⟨max_f, true, some now⟩ := by
        show (if max_f ≤ k + 1 then (⟨k + 1, true, some now⟩ : CBState)
          else ⟨k + 1, false, none⟩) = ⟨max_f, true, some now⟩
        rw [if_pos (show max_f ≤ k + 1 by omega)]
        have hk : k + 1 = max_f := by omega
        rw [hk]
      rw [hstep]
      rfl
    · have hstep : record_failure max_f now ⟨k, false, none⟩ = ⟨k + 1, false, none⟩ := by
        show (if max_f ≤ k + 1 then (⟨k + 1, true, some now⟩ : CBState)
          else ⟨k + 1, false, none⟩) = ⟨k + 1, false, none⟩
        rw [if_neg (show ¬ max_f ≤ k + 1 by omega)]
      rw [hstep]
      exact ih (k + 1) max_f now (by omega) hn

theorem allow_trade_closed (cooldown now : ℕ) (s : CBState) (h : s.is_open = false) :
    allow_trade cooldown now s = (true, s) := by
  unfold allow_trade
  rw [if_pos h]

theorem allow_trade_open_none (cooldown now f : ℕ) :
    allow_trade cooldown now ⟨f, true, none⟩ = (false, ⟨f, true, none⟩) := by
  unfold allow_trade
  rw [if_neg (by simp)]

theorem allow_trade_open_wait (cooldown now f t : ℕ) (h : ¬ t + cooldown < now) :
    allow_trade cooldown now ⟨f, true, some t⟩ = (false, ⟨f, true, some t⟩) := by
  unfold allow_trade
  rw [if_neg (by simp)]
  show (if t + cooldown < now then (true, CBState.init)
    else (false, (⟨f, true, some t⟩ : CBState))) = (false, (⟨f, true, some t⟩ : CBState))
  rw [if_neg h]

theorem allow_trade_open_elapsed (cooldown now f t : ℕ) (h : t + cooldown < now) :
    allow_trade cooldown now ⟨f, true, some t⟩ = (true, CBState.init) := by
  unfold allow_trade
  rw [if_neg (by simp)]
  show (if t + cooldown < now then (true, CBState.init)
    else (false, (⟨f, true, some t⟩ : CBState))) = (true, CBState.init)
  rw [if_pos h]

theorem allow_trade_blocked_of (cooldown nq t : ℕ) (s : CBState)
    (ho : s.is_open = true) (ht : s.tripped_at = some t) (h : nq ≤ t + cooldown) :
    allow_trade cooldown nq s = (false, s) := by
  obtain ⟨f, op, tr⟩ := s
  change op = true at ho
  change tr = some t at ht
  subst ho
  subst ht
  exact allow_trade_open_wait cooldown nq f t (by omega)

theorem allow_trade_reset_of (cooldown nq t : ℕ) (s : CBState)
    (ho : s.is_open = true) (ht : s.tripped_at = some t) (h : t + cooldown < nq) :
    allow_trade cooldown nq s = (true, CBState.init) := by
  obtain ⟨f, op, tr⟩ := s
  change op = true at ho
  change tr = some t at ht
  subst ho
  subst ht
  exact allow_trade_open_elapsed cooldown nq f t h

theorem cb_open_iff_failures (max_f cooldown : ℕ) (hm : 1 ≤ max_f) {s : CBState}
    (h : CBReach max_f cooldown s) : s.is_open = true ↔ max_f ≤ s.failures := by
  induction h with
  | init =>
    simp only [CBState.init]
    constructor
    · intro hfo
      exact absurd hfo (by decide)
    · intro hle
      exact absurd hle (by omega)
  | fail now hr ih =>
    rename_i s
    unfold record_failure
    by_cases hc : max_f ≤ s.failures + 1
    · rw [if_pos hc]
      simpa using hc
    · rw [if_neg hc]
      simp only []
      constructor
      · intro ho
        exact absurd (Nat.le_trans (ih.mp ho) (Nat.le_succ _)) hc
      · intro hM
        exact absurd hM hc
  | succ hr ih =>
    simp only [record_success, CBState.init]
    constructor
    · intro hfo
      exact absurd hfo (by decide)
    · intro hle
      exact absurd hle (by omega)
  | allow now hr ih =>
    rename_i s
    obtain ⟨f, op, tr⟩ := s
    cases op with
    | false =>
      rw [allow_trade_closed cooldown now _ rfl]
      exact ih
    | true =>
      cases tr with
      | none =>
        rw [allow_trade_open_none]
        exact ih
      | some t =>
        by_cases hcool : t + cooldown < now
        · rw [allow_trade_open_elapsed cooldown now f t hcool]
          simp only [CBState.init]
          constructor
          · intro hfo
            exact absurd hfo (by decide)
          · intro hle
            exact absurd hle (by omega)
        · rw [allow_trade_open_wait cooldown now f t hcool]
          exact ih

/-- C1: with max_failures at least 1, exactly max_failures consecutive
record_failure calls from the initial state leave the breaker OPEN with the
trip time stamped; an open state queried at or before trip time plus
cooldown answers false and is unchanged; queried strictly after, it answers
true and resets to the initial state (0 failures, trip time cleared);
record_success resets any reachable state to the initial state; and every
reachable state is open exactly when its failure count has reached
max_failures. -/
theorem circuit_breaker_state_machine (max_f cooldown now nq t : ℕ)
    (hm : 1 ≤ max_f) (s sOpen : CBState)
    (hr : CBReach max_f cooldown s)
    (ho : sOpen.is_open = true) (ht : sOpen.tripped_at = some t) :
    failN max_f (List.replicate max_f now) CBState.init = ⟨max_f, true, some now⟩ ∧
    (nq ≤ t + cooldown → allow_trade cooldown nq sOpen = (false, sOpen)) ∧
    (t + cooldown < nq → allow_trade cooldown nq sOpen = (true, CBState.init)) ∧
    record_success s = CBState.init ∧
    (s.is_open = true ↔ max_f ≤ s.failures) := by
  refine ⟨?_, ?_, ?_, rfl, cb_open_iff_failures max_f cooldown hm hr⟩
  · exact failN_replicate_trips max_f 0 max_f now (by omega) hm
  · intro hle
    exact allow_trade_blocked_of cooldown nq t sOpen ho ht hle
  · intro hlt
    exact allow_trade_reset_of cooldown nq t sOpen ho ht hlt

/-- C1 witness: the theorem applied at max_failures 3, cooldown 5, failure
time 7, query time 9 and trip time 4, on the reachable initial state and the
open state with 2 failures tripped at 4; the query at 9 is within the
cooldown window ending at 9, so the trade stays blocked there. -/
theorem circuit_breaker_state_machine_witness :
    1 ≤ 3 ∧ CBReach 3 5 CBState.init ∧
    CBState.is_open ⟨2, true, some 4⟩ = true ∧
    CBState.tripped_at ⟨2, true, some 4⟩ = some 4 ∧
    (failN 3 (List.replicate 3 7) CBState.init = ⟨3, true, some 7⟩ ∧
      (9 ≤ 4 + 5 → allow_trade 5 9 ⟨2, true, some 4⟩ = (false, ⟨2, true, some 4⟩)) ∧
      (4 + 5 < 9 → allow_trade 5 9 ⟨2, true, some 4⟩ = (true, CBState.init)) ∧
      record_success CBState.init = CBState.init ∧
      (CBState.is_open CBState.init = true ↔ 3 ≤ CBState.failures CBState.init)) :=
  ⟨by decide, CBReach.init, rfl, rfl,
    circuit_breaker_state_machine 3 5 7 9 4 (by decide) CBState.init ⟨2, true, some 4⟩
      CBReach.init rfl rfl⟩

/-- TESTNET_TOKENS of core/constants.py. -/
def TESTNET_TOKENS : List (String × String) := [
  ("BNB",  "0xae13d989daC2f0dEbFf460aC112a837C89BAa7cd"),
  ("CAKE", "0xa35062EA4301827E69e6008E18d14f5d8C3DBA3e"),
  ("BUSD", "0xeD24FC36d5Ee211Ea25A80239Fb8C4Cfd80f12Ee"),
  ("USDT", "0x337610d27c682E347C9cD60BD4b3b107C9d34dDd"),
  ("DAI",  "0x8a9424745056Eb399FD19a0EC26A14316684e274")]

/-- MAINNET_AUDIT_MAP of agents/execution_agent.py lines 63 to 68: testnet
symbols mapped to the mainnet addresses handed to the auditor. -/
def MAINNET_AUDIT_MAP : List (String × String) := [
  ("BNB",      "0xbb4CdB9CBd36B01bD1cBaEBF2De08d9173bc095c"),
  ("BUSD",     "0xe9e7CEA3DedcA5984780Bafc599bD69ADd087D56"),
  ("CAKE",     "0x0E09FaBB73Bd3Ade0a17ECC321fD13a19e81cE82"),
  ("SAFEMOON", "0x8076C74C5e3F5852037F31Ff0093Eeb8c8ADd8D3")]

/-- ExecutionAgent._buy_path: WBNB to BUSD to the token, degenerating to the
two-hop WBNB-BUSD pair for BUSD itself, and empty for an unknown token or
for BNB (WBNB) itself. -/
def buy_path (token : String) : List String :=
  let wbnb := strLower "0xae13d989daC2f0dEbFf460aC112a837C89BAa7cd"
  let busd := strLower "0xeD24FC36d5Ee211Ea25A80239Fb8C4Cfd80f12Ee"
  match dictGet TESTNET_TOKENS (strUpper token) with
  | none => []
  | some addr =>
    let token_addr := strLower addr
    if token_addr = wbnb then []
    else if token_addr = busd then [wbnb, busd]
    else [wbnb, busd, token_addr]

/-- ExecutionAgent._sell_path: the token back to BUSD and WBNB, with the
degenerate BUSD-WBNB pair for BUSD, and empty for an unknown token. -/
def sell_path (token : String) : List String :=
  let wbnb := strLower "0xae13d989daC2f0dEbFf460aC112a837C89BAa7cd"
  let busd := strLower "0xeD24FC36d5Ee211Ea25A80239Fb8C4Cfd80f12Ee"
  match dictGet TESTNET_TOKENS (strUpper token) with
  | none => []
  | some addr =>
    let token_addr := strLower addr
    if token_addr = busd then [busd, wbnb]
    else [token_addr, busd, wbnb]

/-- Outcomes of the external calls ExecutionAgent._preflight makes: the MCP
liveness probe, the native-balance read and the getAmountsOut route read.
Each Bool absracts whether that call came back with an error. -/
structure PreflightEnv where
  mcpAlive : Bool
  balanceError : Bool
  routeError : Bool
deriving DecidableEq

/-- ExecutionAgent._preflight, execution_agent.py lines 363 to 395, as the
sequence of checks in source order, returning the failure reason or none.
price_diff is the percentage from the decision record and min_profit the
fractional MIN_PROFIT_THRESHOLD, compared as in the source by
price_diff < min_profit * 100. -/
def preflightCheck (wallet : String) (min_profit : ℚ) (env : PreflightEnv)
    (token : String) (price_diff : ℚ) : Option String :=
  if wallet = "" then some "WALLET_ADDRESS is missing in .env"
  else if env.mcpAlive = false then some "MCP server is not reachable."
  else if (dictGet TESTNET_TOKENS (strUpper token)).isNone then some "Unsupported token."
  else if strUpper token = "BNB" then some "Token BNB is invalid for buy-on-DEX demo."
  else if env.balanceError = true then some "Native balance check failed."
  else if (buy_path token).length < 2 then some "Invalid swap path for token."
  else if env.routeError = true then some "Route validation failed."
  else if price_diff < min_profit * 100 then some "Profit below minimum."
  else none

/-- Mutable state of an ExecutionAgent: its circuit breaker and the trade
ledger, each ledger entry abstracted to the status string it carries. -/
structure AgentState where
  breaker : CBState
  ledger : List String
deriving DecidableEq

/-- Configuration of an ExecutionAgent, from environment variables at
construction. -/
structure ExecConfig where
  max_failures : ℕ
  cooldown : ℕ
  wallet : String
  min_profit : ℚ
  min_profit_bnb : ℚ
  gas_estimate_bnb : ℚ
  amount_wei : ℤ

/-- TradeLogger.log: append the entry carrying the given status. -/
def logStatus (st : AgentState) (status : String) : AgentState :=
  { st with ledger := st.ledger ++ [status] }

/-- Outcomes of the external calls ExecutionAgent.execute makes beyond the
preflight: the auditor verdict and the buy-leg swap. -/
structure ExecuteEnv where
  now : ℕ
  pf : PreflightEnv
  auditSafe : Bool
  buyError : Bool
deriving DecidableEq

/-- ExecutionAgent.execute, execution_agent.py lines 224 to 279: circuit
breaker gate (blocked result returned without logging), audit gate for
tokens in MAINNET_AUDIT_MAP (blocked result logged, breaker untouched),
preflight (failure logged and counted), buy leg (failure logged and
counted), success (logged, breaker reset).  Returns the result status and
the new agent state. -/
def execute (cfg : ExecConfig) (env : ExecuteEnv) (token : String)
    (price_diff : ℚ) (st : AgentState) : String × AgentState :=
  let a := allow_trade cfg.cooldown env.now st.breaker
  if a.1 = false then
    ("BLOCKED_CIRCUIT_BREAKER", { st with breaker := a.2 })
  else
    let st1 : AgentState := { st with breaker := a.2 }
    let audited : Bool :=
      (dictGet MAINNET_AUDIT_MAP (strUpper token)).isSome && !env.auditSafe
    if audited = true then
      ("BLOCKED_MALICIOUS_CONTRACT", logStatus st1 "BLOCKED_MALICIOUS_CONTRACT")
    else
      match preflightCheck cfg.wallet cfg.min_profit env.pf token price_diff with
      | some _ =>
        ("PREFLIGHT_FAILED",
          { breaker := record_failure cfg.max_failures env.now st1.breaker,
            ledger := st1.ledger ++ ["PREFLIGHT_FAILED"] })
      | none =>
        if env.buyError = true then
          ("FAILED",
            { breaker := record_failure cfg.max_failures env.now st1.breaker,
              ledger := st1.ledger ++ ["FAILED"] })
        else
          ("SUCCESS",
            { breaker := record_success st1.breaker,
              ledger := st1.ledger ++ ["SUCCESS"] })

/-- Outcomes of the external calls ExecutionAgent.execute_two_leg makes: the
gas estimate (none when the web3 path yields nothing, falling back to the
configured estimate), the two route quotes, and the two swap legs. -/
structure TwoLegEnv where
  now : ℕ
  pf : PreflightEnv
  gasEstimate : Option ℚ
  buyQuote : Option (List ℤ)
  sellQuote : Option (List ℤ)
  buyError : Bool
  sellError : Bool
deriving DecidableEq

/-- The gas estimate used by execute_two_leg: the web3 estimate when it
yields one, else the configured fallback (line 303 of the source). -/
def gasOf (cfg : ExecConfig) (env : TwoLegEnv) : ℚ :=
  match env.gasEstimate with
  | some g => g
  | none => cfg.gas_estimate_bnb

/-- The expected round-trip profit in BNB computed by execute_two_leg from
the sell quote: (expected_wbnb_out - amount_wei) / 1e18 (lines 313 to 316). -/
def expectedProfitBnb (cfg : ExecConfig) (sq : List ℤ) : ℚ :=
  ((sq.getLastD 0 - cfg.amount_wei : ℤ) : ℚ) / (10 ^ 18 : ℚ)

/-- ExecutionAgent.execute_two_leg, execution_agent.py lines 281 to 360.
The blocked result is returned without logging; a failure inside
_preflight is logged and counted against the breaker; an invalid swap path
or a failed buy or sell quote returns PREFLIGHT_FAILED with no log entry
and no breaker update; an expected profit below the minimum (unless
force_trade) is logged but not counted; buy or sell leg errors are logged
and counted; success is logged and resets the breaker. -/
def execute_two_leg (cfg : ExecConfig) (env : TwoLegEnv) (token : String)
    (price_diff : ℚ) (force_trade : Bool) (st : AgentState) : String × AgentState :=
  let a := allow_trade cfg.cooldown env.now st.breaker
  if a.1 = false then
    ("BLOCKED_CIRCUIT_BREAKER", { st with breaker := a.2 })
  else
    let st1 : AgentState := { st with breaker := a.2 }
    match preflightCheck cfg.wallet cfg.min_profit env.pf token price_diff with
    | some _ =>
      ("PREFLIGHT_FAILED",
        { breaker := record_failure cfg.max_failures env.now st1.breaker,
          ledger := st1.ledger ++ ["PREFLIGHT_FAILED"] })
    | none =>
      if buy_path token = [] ∨ sell_path token = [] then
        ("PREFLIGHT_FAILED", st1)
      else
        match env.buyQuote with
        | none => ("PREFLIGHT_FAILED", st1)
        | some _bq =>
          match env.sellQuote with
          | none => ("PREFLIGHT_FAILED", st1)
          | some sq =>
            if force_trade = false ∧ expectedProfitBnb cfg sq - gasOf cfg env < cfg.min_profit_bnb then
              ("PREFLIGHT_FAILED", { st1 with ledger := st1.ledger ++ ["PREFLIGHT_FAILED"] })
            else
              if env.buyError = true then
                ("FAILED",
                  { breaker := record_failure cfg.max_failures env.now st1.breaker,
                    ledger := st1.ledger ++ ["FAILED"] })
              else if env.sellError = true then
                ("FAILED",
                  { breaker := record_failure cfg.max_failures env.now st1.breaker,
                    ledger := st1.ledger ++ ["FAILED"] })
              else
                ("SUCCESS",
                  { breaker := record_success st1.breaker,
                    ledger := st1.ledger ++ ["SUCCESS"] })

/-- The minimum-output parameter of _swap_native_for_token (execution_agent.py
line 436) and _swap_token_for_token (line 497): max(1, int(expected_out * 0.01)),
one percent OF the quoted output. -/
def min_out_wei (expected_out : ℤ) : ℤ :=
  max 1 (pyInt ((expected_out : ℚ) * (1 / 100)))

theorem allow_trade_false_snd (c n : ℕ) (s : CBState)
    (h : (allow_trade c n s).1 = false) : (allow_trade c n s).2 = s := by
  obtain ⟨f, op, tr⟩ := s
  cases op with
  | false =>
    rw [allow_trade_closed c n _ rfl] at h
    simp at h
  | true =>
    cases tr with
    | none =>
      rw [allow_trade_open_none]
    | some t =>
      by_cases hc : t + c < n
      · rw [allow_trade_open_elapsed c n f t hc] at h
        simp at h
      · rw [allow_trade_open_wait c n f t hc]

theorem execute_blocked (cfg : ExecConfig) (env : ExecuteEnv) (token : String)
    (pd : ℚ) (st : AgentState)
    (hA : (allow_trade cfg.cooldown env.now st.breaker).1 = false) :
    execute cfg env token pd st = ("BLOCKED_CIRCUIT_BREAKER", st) := by
  unfold execute
  dsimp only
  rw [hA, if_pos rfl, allow_trade_false_snd cfg.cooldown env.now st.breaker hA]

theorem execute_audit_blocked (cfg : ExecConfig) (env : ExecuteEnv) (token : String)
    (pd : ℚ) (st : AgentState)
    (hA : (allow_trade cfg.cooldown env.now st.breaker).1 = true)
    (hm : (dictGet MAINNET_AUDIT_MAP (strUpper token)).isSome = true)
    (hs : env.auditSafe = false) :
    execute cfg env token pd st =
      ("BLOCKED_MALICIOUS_CONTRACT",
        ⟨(allow_trade cfg.cooldown env.now st.breaker).2,
          st.ledger ++ ["BLOCKED_MALICIOUS_CONTRACT"]⟩) := by
  unfold execute
  dsimp only
  rw [hA, if_neg (by decide), hm, hs]
  rw [if_pos (by decide)]
  rfl

theorem execute_no_audit_block (cfg : ExecConfig) (env : ExecuteEnv) (token : String)
    (pd : ℚ) (st : AgentState)
    (hA : (allow_trade cfg.cooldown env.now st.breaker).1 = true)
    (hm : ((dictGet MAINNET_AUDIT_MAP (strUpper token)).isSome && !env.auditSafe) = false) :
    execute cfg env token pd st =
      (match preflightCheck cfg.wallet cfg.min_profit env.pf token pd with
        | some _ =>
          ("PREFLIGHT_FAILED",
            (⟨record_failure cfg.max_failures env.now (allow_trade cfg.cooldown env.now st.breaker).2,
              st.ledger ++ ["PREFLIGHT_FAILED"]⟩ : AgentState))
        | none =>
          if env.buyError = true then
            ("FAILED",
              ⟨record_failure cfg.max_failures env.now (allow_trade cfg.cooldown env.now st.breaker).2,
                st.ledger ++ ["FAILED"]⟩)
          else
            ("SUCCESS",
              ⟨record_success (allow_trade cfg.cooldown env.now st.breaker).2,
                st.ledger ++ ["SUCCESS"]⟩)) := by
  unfold execute
  dsimp only
  rw [hA, if_neg (by decide), hm, if_neg (by decide)]

theorem two_leg_blocked (cfg : ExecConfig) (env : TwoLegEnv) (token : String)
    (pd : ℚ) (force_trade : Bool) (st : AgentState)
    (hA : (allow_trade cfg.cooldown env.now st.breaker).1 = false) :
    execute_two_leg cfg env token pd force_trade st = ("BLOCKED_CIRCUIT_BREAKER", st) := by
  unfold execute_two_leg
  dsimp only
  rw [hA, if_pos rfl, allow_trade_false_snd cfg.cooldown env.now st.breaker hA]

theorem two_leg_preflight_failed (cfg : ExecConfig) (env : TwoLegEnv) (token : String)
    (pd : ℚ) (force_trade : Bool) (st : AgentState) (r : String)
    (hA : (allow_trade cfg.cooldown env.now st.breaker).1 = true)
    (hpf : preflightCheck cfg.wallet cfg.min_profit env.pf token pd = some r) :
    execute_two_leg cfg env token pd force_trade st =
      ("PREFLIGHT_FAILED",
        ⟨record_failure cfg.max_failures env.now (allow_trade cfg.cooldown env.now st.breaker).2,
          st.ledger ++ ["PREFLIGHT_FAILED"]⟩) := by
  unfold execute_two_leg
  dsimp only
  rw [hA, if_neg (by decide), hpf]

theorem two_leg_after_preflight (cfg : ExecConfig) (env : TwoLegEnv) (token : String)
    (pd : ℚ) (force_trade : Bool) (st : AgentState)
    (hA : (allow_trade cfg.cooldown env.now st.breaker).1 = true)
    (hpf : preflightCheck cfg.wallet cfg.min_profit env.pf token pd = none) :
    execute_two_leg cfg env token pd force_trade st =
      (if buy_path token = [] ∨ sell_path token = [] then
        ("PREFLIGHT_FAILED",
          (⟨(allow_trade cfg.cooldown env.now st.breaker).2, st.ledger⟩ : AgentState))
      else
        match env.buyQuote with
        | none =>
          ("PREFLIGHT_FAILED",
            ⟨(allow_trade cfg.cooldown env.now st.breaker).2, st.ledger⟩)
        | some _bq =>
          match env.sellQuote with
          | none =>
            ("PREFLIGHT_FAILED",
              ⟨(allow_trade cfg.cooldown env.now st.breaker).2, st.ledger⟩)
          | some sq =>
            if force_trade = false ∧ expectedProfitBnb cfg sq - gasOf cfg env < cfg.min_profit_bnb then
              ("PREFLIGHT_FAILED",
                ⟨(allow_trade cfg.cooldown env.now st.breaker).2,
                  st.ledger ++ ["PREFLIGHT_FAILED"]⟩)
            else
              if env.buyError = true then
                ("FAILED",
                  ⟨record_failure cfg.max_failures env.now (allow_trade cfg.cooldown env.now st.breaker).2,
                    st.ledger ++ ["FAILED"]⟩)
              else if env.sellError = true then
                ("FAILED",
                  ⟨record_failure cfg.max_failures env.now (allow_trade cfg.cooldown env.now st.breaker).2,
                    st.ledger ++ ["FAILED"]⟩)
              else
                ("SUCCESS",
                  ⟨record_success (allow_trade cfg.cooldown env.now st.breaker).2,
                    st.ledger ++ ["SUCCESS"]⟩)) := by
  unfold execute_two_leg
  dsimp only
  rw [hA, if_neg (by decide), hpf]

/-- C2 as amended: every call to execute appends exactly one ledger entry
carrying the terminal status, except a BLOCKED_CIRCUIT_BREAKER result,
which is returned immediately with the agent state unchanged (nothing
logged, breaker untouched); execute_two_leg behaves the same, except that
additionally a PREFLIGHT_FAILED result arising from an invalid swap path or
a missing buy or sell quote is returned with nothing logged. -/
theorem ledger_logging_amended (cfg : ExecConfig) (envE : ExecuteEnv)
    (envT : TwoLegEnv) (token : String) (pd : ℚ) (force_trade : Bool)
    (stE stT : AgentState) :
    ((allow_trade cfg.cooldown envE.now stE.breaker).1 = false →
      execute cfg envE token pd stE = ("BLOCKED_CIRCUIT_BREAKER", stE)) ∧
    ((allow_trade cfg.cooldown envE.now stE.breaker).1 = true →
      (execute cfg envE token pd stE).2.ledger
        = stE.ledger ++ [(execute cfg envE token pd stE).1] ∧
      (execute cfg envE token pd stE).1 ≠ "BLOCKED_CIRCUIT_BREAKER") ∧
    ((allow_trade cfg.cooldown envT.now stT.breaker).1 = false →
      execute_two_leg cfg envT token pd force_trade stT = ("BLOCKED_CIRCUIT_BREAKER", stT)) ∧
    ((allow_trade cfg.cooldown envT.now stT.breaker).1 = true →
      preflightCheck cfg.wallet cfg.min_profit envT.pf token pd = none →
      (buy_path token = [] ∨ sell_path token = [] ∨
        envT.buyQuote = none ∨ envT.sellQuote = none) →
      (execute_two_leg cfg envT token pd force_trade stT).1 = "PREFLIGHT_FAILED" ∧
      (execute_two_leg cfg envT token pd force_trade stT).2.ledger = stT.ledger) ∧
    ((allow_trade cfg.cooldown envT.now stT.breaker).1 = true →
      ¬(preflightCheck cfg.wallet cfg.min_profit envT.pf token pd = none ∧
        (buy_path token = [] ∨ sell_path token = [] ∨
          envT.buyQuote = none ∨ envT.sellQuote = none)) →
      (execute_two_leg cfg envT token pd force_trade stT).2.ledger
        = stT.ledger ++ [(execute_two_leg cfg envT token pd force_trade stT).1]) := by
  refine ⟨?_, ?_, ?_, ?_, ?_⟩
  · intro hA
    exact execute_blocked cfg envE token pd stE hA
  · intro hA
    by_cases hm : ((dictGet MAINNET_AUDIT_MAP (strUpper token)).isSome && !envE.auditSafe) = true
    · have hmm : (dictGet MAINNET_AUDIT_MAP (strUpper token)).isSome = true :=
        (Bool.and_eq_true _ _ |>.mp hm).1
      have hss : envE.auditSafe = false := by
        have h2 := (Bool.and_eq_true _ _ |>.mp hm).2
        cases hcase : envE.auditSafe
        · rfl
        · rw [hcase] at h2
          exact absurd h2 (by decide)
      rw [execute_audit_blocked cfg envE token pd stE hA hmm hss]
      exact ⟨rfl, (by decide : "BLOCKED_MALICIOUS_CONTRACT" ≠ "BLOCKED_CIRCUIT_BREAKER")⟩
    · have hm' : ((dictGet MAINNET_AUDIT_MAP (strUpper token)).isSome && !envE.auditSafe) = false :=
        Bool.eq_false_iff.mpr hm
      rw [execute_no_audit_block cfg envE token pd stE hA hm']
      cases hpf : preflightCheck cfg.wallet cfg.min_profit envE.pf token pd with
      | some r =>
        exact ⟨rfl, (by decide : "PREFLIGHT_FAILED" ≠ "BLOCKED_CIRCUIT_BREAKER")⟩
      | none =>
        by_cases hb : envE.buyError = true
        · rw [if_pos hb]
          exact ⟨rfl, (by decide : "FAILED" ≠ "BLOCKED_CIRCUIT_BREAKER")⟩
        · rw [if_neg hb]
          exact ⟨rfl, (by decide : "SUCCESS" ≠ "BLOCKED_CIRCUIT_BREAKER")⟩
  · intro hA
    exact two_leg_blocked cfg envT token pd force_trade stT hA
  · intro hA hpf hone
    rw [two_leg_after_preflight cfg envT token pd force_trade stT hA hpf]
    split
    · exact ⟨rfl, rfl⟩
    · rename_i hp
      split
      · exact ⟨rfl, rfl⟩
      · rename_i bq hbq
        split
        · exact ⟨rfl, rfl⟩
        · rename_i sq hsq
          exfalso
          rcases hone with h | h | h | h
          · exact hp (Or.inl h)
          · exact hp (Or.inr h)
          · rw [hbq] at h
            exact Option.noConfusion h
          · rw [hsq] at h
            exact Option.noConfusion h
  · intro hA hnot
    cases hpf : preflightCheck cfg.wallet cfg.min_profit envT.pf token pd with
    | some r =>
      rw [two_leg_preflight_failed cfg envT token pd force_trade stT r hA hpf]
    | none =>
      rw [two_leg_after_preflight cfg envT token pd force_trade stT hA hpf]
      split
      · rename_i hp
        rcases hp with h | h
        · exact absurd ⟨hpf, Or.inl h⟩ hnot
        · exact absurd ⟨hpf, Or.inr (Or.inl h)⟩ hnot
      · rename_i hp
        split
        · rename_i hbq
          exact absurd ⟨hpf, Or.inr (Or.inr (Or.inl hbq))⟩ hnot
        · rename_i bq hbq
          split
          · rename_i hsq
            exact absurd ⟨hpf, Or.inr (Or.inr (Or.inr hsq))⟩ hnot
          · rename_i sq hsq
            split
            · rfl
            · split
              · rfl
              · split
                · rfl
                · rfl

theorem record_failure_failures (m n : ℕ) (s : CBState) :
    (record_failure m n s).failures = s.failures + 1 := by
  unfold record_failure
  by_cases hx : m ≤ s.failures + 1
  · rw [if_pos hx]
  · rw [if_neg hx]

/-- Sample agent configuration used by the concrete witnesses: max_failures
3, cooldown 15, a configured wallet, MIN_PROFIT_THRESHOLD 0.005,
MIN_PROFIT_BNB 0.000002, no fallback gas estimate, 0.01 BNB in wei. -/
def sampleConfig : ExecConfig :=
  ⟨3, 15, "0xwallet", 1/200, 1/500000, 0, 10000000000000000⟩

/-- Preflight environment with every external call healthy. -/
def healthyPf : PreflightEnv := ⟨true, false, false⟩

/-- C10: whenever the circuit breaker allows the trade, the upper-cased
token is present in MAINNET_AUDIT_MAP and the auditor reports it unsafe,
execute returns BLOCKED_MALICIOUS_CONTRACT, appends exactly that entry to
the ledger, and leaves the breaker exactly as the allow_trade call left it;
in particular a closed breaker is completely untouched (the block is not
counted as a failure). -/
theorem audit_block_behavior (cfg : ExecConfig) (env : ExecuteEnv) (token : String)
    (pd : ℚ) (st : AgentState)
    (hA : (allow_trade cfg.cooldown env.now st.breaker).1 = true)
    (hm : (dictGet MAINNET_AUDIT_MAP (strUpper token)).isSome = true)
    (hs : env.auditSafe = false) :
    (execute cfg env token pd st).1 = "BLOCKED_MALICIOUS_CONTRACT" ∧
    (execute cfg env token pd st).2.ledger = st.ledger ++ ["BLOCKED_MALICIOUS_CONTRACT"] ∧
    (execute cfg env token pd st).2.breaker = (allow_trade cfg.cooldown env.now st.breaker).2 ∧
    (st.breaker.is_open = false → (execute cfg env token pd st).2.breaker = st.breaker) := by
  rw [execute_audit_blocked cfg env token pd st hA hm hs]
  refine ⟨rfl, rfl, rfl, ?_⟩
  intro hop
  show (allow_trade cfg.cooldown env.now st.breaker).2 = st.breaker
  rw [allow_trade_closed cfg.cooldown env.now st.breaker hop]

/-- C10 witness: the theorem applied to SAFEMOON (mapped to the mainnet
SafeMoon address in MAINNET_AUDIT_MAP) with an unsafe audit verdict, a
closed breaker and an empty ledger. -/
theorem audit_block_behavior_witness :
    (allow_trade sampleConfig.cooldown 0 CBState.init).1 = true ∧
    (dictGet MAINNET_AUDIT_MAP (strUpper "SAFEMOON")).isSome = true ∧
    ((execute sampleConfig ⟨0, healthyPf, false, false⟩ "SAFEMOON" 2 ⟨CBState.init, []⟩).1
        = "BLOCKED_MALICIOUS_CONTRACT" ∧
      (execute sampleConfig ⟨0, healthyPf, false, false⟩ "SAFEMOON" 2 ⟨CBState.init, []⟩).2.ledger
        = ["BLOCKED_MALICIOUS_CONTRACT"] ∧
      (execute sampleConfig ⟨0, healthyPf, false, false⟩ "SAFEMOON" 2 ⟨CBState.init, []⟩).2.breaker
        = CBState.init ∧
      (CBState.is_open CBState.init = false →
        (execute sampleConfig ⟨0, healthyPf, false, false⟩ "SAFEMOON" 2 ⟨CBState.init, []⟩).2.breaker
          = CBState.init)) :=
  ⟨by decide, by decide,
    audit_block_behavior sampleConfig ⟨0, healthyPf, false, false⟩ "SAFEMOON" 2
      ⟨CBState.init, []⟩ (by decide) (by decide) rfl⟩

/-- C4: the buy-leg minimum-output parameter is max(1, int(expected_out * 0.01)),
one percent OF the quote rather than one to two percent BELOW it: at the
quoted output 1000 the submitted minimum is 10, strictly below 980 = 1000 * (1 - 0.02)
and below 990 = 1000 * (1 - 0.01), so the bound min_out >= E * (1 - s) fails for
every slippage s in [0.01, 0.02]; the configured slippage_tolerance (0.02)
is never consulted. -/
theorem buy_leg_min_out_violates_slippage :
    min_out_wei 1000 = 10 ∧
    ((1000 : ℚ) * (1 - 2/100) = 980) ∧
    ((1000 : ℚ) * (1 - 1/100) = 990) ∧
    ((min_out_wei 1000 : ℚ) < 980) ∧
    ((min_out_wei 1000 : ℚ) < 990) := by
  have h : min_out_wei 1000 = 10 := by
    norm_num [min_out_wei, pyInt]
  refine ⟨h, by norm_num, by norm_num, ?_, ?_⟩
  · rw [h]
    norm_num
  · rw [h]
    norm_num

theorem preflight_healthy_passes :
    preflightCheck "0xwallet" (1/200) healthyPf "CAKE" 2 = none := by
  unfold preflightCheck
  rw [if_neg (by decide)]
  rw [if_neg (by decide)]
  rw [if_neg (by decide)]
  rw [if_neg (by decide)]
  rw [if_neg (by decide)]
  rw [if_neg (by decide)]
  rw [if_neg (by decide)]
  rw [if_neg (by norm_num)]

theorem preflight_healthy_passes_usdt :
    preflightCheck "0xwallet" (1/200) healthyPf "USDT" 2 = none := by
  unfold preflightCheck
  rw [if_neg (by decide)]
  rw [if_neg (by decide)]
  rw [if_neg (by decide)]
  rw [if_neg (by decide)]
  rw [if_neg (by decide)]
  rw [if_neg (by decide)]
  rw [if_neg (by decide)]
  rw [if_neg (by norm_num)]

/-- C2 counterexample: with the breaker open and inside its cooldown,
execute returns BLOCKED_CIRCUIT_BREAKER with the ledger still empty (no
entry appended); and with a healthy preflight but a failed buy-route quote,
execute_two_leg returns PREFLIGHT_FAILED with the ledger still empty.  Both
refute the claim that every terminal status appends exactly one ledger
entry. -/
theorem unconditional_logging_counterexample :
    (execute sampleConfig ⟨101, healthyPf, true, false⟩ "CAKE" 2
        ⟨⟨3, true, some 100⟩, []⟩).1 = "BLOCKED_CIRCUIT_BREAKER" ∧
    (execute sampleConfig ⟨101, healthyPf, true, false⟩ "CAKE" 2
        ⟨⟨3, true, some 100⟩, []⟩).2.ledger = [] ∧
    (execute_two_leg sampleConfig ⟨0, healthyPf, some 0, none, none, false, false⟩
        "CAKE" 2 false ⟨CBState.init, []⟩).1 = "PREFLIGHT_FAILED" ∧
    (execute_two_leg sampleConfig ⟨0, healthyPf, some 0, none, none, false, false⟩
        "CAKE" 2 false ⟨CBState.init, []⟩).2.ledger = [] := by
  have hb := execute_blocked sampleConfig ⟨101, healthyPf, true, false⟩ "CAKE" 2
    ⟨⟨3, true, some 100⟩, []⟩ (by decide)
  have h2 := two_leg_after_preflight sampleConfig
    ⟨0, healthyPf, some 0, none, none, false, false⟩ "CAKE" 2 false
    ⟨CBState.init, []⟩ (by decide) preflight_healthy_passes
  rw [hb, h2]
  refine ⟨rfl, rfl, ?_, ?_⟩
  · rw [if_neg (by decide)]
  · rw [if_neg (by decide)]

/-- C3 counterexample: a healthy _preflight followed by a failed buy-route
quote makes execute_two_leg return PREFLIGHT_FAILED while writing no ledger
entry and leaving consecutive_failures at 0, refuting both the
exactly-one-entry and the increment-by-one parts of the claim for this
pre-flight validation failure. -/
theorem preflight_accounting_counterexample :
    (execute_two_leg sampleConfig ⟨3, healthyPf, none, none, some [5], false, false⟩
        "USDT" 2 false ⟨CBState.init, []⟩).1 = "PREFLIGHT_FAILED" ∧
    (execute_two_leg sampleConfig ⟨3, healthyPf, none, none, some [5], false, false⟩
        "USDT" 2 false ⟨CBState.init, []⟩).2.ledger = [] ∧
    (execute_two_leg sampleConfig ⟨3, healthyPf, none, none, some [5], false, false⟩
        "USDT" 2 false ⟨CBState.init, []⟩).2.breaker.failures = 0 := by
  have h2 := two_leg_after_preflight sampleConfig
    ⟨3, healthyPf, none, none, some [5], false, false⟩ "USDT" 2 false
    ⟨CBState.init, []⟩ (by decide) preflight_healthy_passes_usdt
  rw [h2]
  refine ⟨?_, ?_, ?_⟩
  · rw [if_neg (by decide)]
  · rw [if_neg (by decide)]
  · rw [if_neg (by decide)]
    rfl


/-- C3 as amended: in execute, every pre-flight validation failure (with a
closed breaker and no audit block) yields PREFLIGHT_FAILED, exactly one
ledger entry, and a consecutive_failures increment of exactly 1;
execute_two_leg does the same only for failures inside the shared
_preflight helper; its later invalid-swap-path failure, failed buy-route
quote and failed sell-route quote each return PREFLIGHT_FAILED with no
ledger entry and an unchanged breaker, and its below-minimum-profit failure
logs exactly one entry but leaves the breaker unchanged.  The environments
envT, envI, envQ, envS and envP carry the external-call outcomes of the
five two-leg cases. -/
theorem preflight_failure_accounting_amended (cfg : ExecConfig)
    (envE : ExecuteEnv) (envT envI envQ envS envP : TwoLegEnv) (token : String)
    (pd : ℚ) (force_trade : Bool) (stE stT : AgentState) (bq bq2 sq : List ℤ) :
    (stE.breaker.is_open = false →
      ((dictGet MAINNET_AUDIT_MAP (strUpper token)).isSome && !envE.auditSafe) = false →
      (preflightCheck cfg.wallet cfg.min_profit envE.pf token pd).isSome = true →
      (execute cfg envE token pd stE).1 = "PREFLIGHT_FAILED" ∧
      (execute cfg envE token pd stE).2.ledger = stE.ledger ++ ["PREFLIGHT_FAILED"] ∧
      (execute cfg envE token pd stE).2.breaker.failures = stE.breaker.failures + 1) ∧
    (stT.breaker.is_open = false →
      (preflightCheck cfg.wallet cfg.min_profit envT.pf token pd).isSome = true →
      (execute_two_leg cfg envT token pd force_trade stT).1 = "PREFLIGHT_FAILED" ∧
      (execute_two_leg cfg envT token pd force_trade stT).2.ledger
        = stT.ledger ++ ["PREFLIGHT_FAILED"] ∧
      (execute_two_leg cfg envT token pd force_trade stT).2.breaker.failures
        = stT.breaker.failures + 1) ∧
    (stT.breaker.is_open = false →
      preflightCheck cfg.wallet cfg.min_profit envI.pf token pd = none →
      (buy_path token = [] ∨ sell_path token = []) →
      execute_two_leg cfg envI token pd force_trade stT = ("PREFLIGHT_FAILED", stT)) ∧
    (stT.breaker.is_open = false →
      preflightCheck cfg.wallet cfg.min_profit envQ.pf token pd = none →
      ¬(buy_path token = [] ∨ sell_path token = []) →
      envQ.buyQuote = none →
      execute_two_leg cfg envQ token pd force_trade stT = ("PREFLIGHT_FAILED", stT)) ∧
    (stT.breaker.is_open = false →
      preflightCheck cfg.wallet cfg.min_profit envS.pf token pd = none →
      ¬(buy_path token = [] ∨ sell_path token = []) →
      envS.buyQuote = some bq2 →
      envS.sellQuote = none →
      execute_two_leg cfg envS token pd force_trade stT = ("PREFLIGHT_FAILED", stT)) ∧
    (stT.breaker.is_open = false →
      preflightCheck cfg.wallet cfg.min_profit envP.pf token pd = none →
      ¬(buy_path token = [] ∨ sell_path token = []) →
      envP.buyQuote = some bq →
      envP.sellQuote = some sq →
      force_trade = false →
      expectedProfitBnb cfg sq - gasOf cfg envP < cfg.min_profit_bnb →
      execute_two_leg cfg envP token pd force_trade stT =
        ("PREFLIGHT_FAILED", ⟨stT.breaker, stT.ledger ++ ["PREFLIGHT_FAILED"]⟩)) := by
  refine ⟨?_, ?_, ?_, ?_, ?_, ?_⟩
  · intro hop hm hpf
    have hA : (allow_trade cfg.cooldown envE.now stE.breaker).1 = true := by
      rw [allow_trade_closed _ _ _ hop]
    have h2 : (allow_trade cfg.cooldown envE.now stE.breaker).2 = stE.breaker := by
      rw [allow_trade_closed _ _ _ hop]
    rw [execute_no_audit_block cfg envE token pd stE hA hm]
    cases hpc : preflightCheck cfg.wallet cfg.min_profit envE.pf token pd with
    | none =>
      rw [hpc] at hpf
      simp at hpf
    | some r =>
      refine ⟨rfl, rfl, ?_⟩
      show (record_failure cfg.max_failures envE.now
        (allow_trade cfg.cooldown envE.now stE.breaker).2).failures
        = stE.breaker.failures + 1
      rw [h2, record_failure_failures]
  · intro hop hpf
    have hA : (allow_trade cfg.cooldown envT.now stT.breaker).1 = true := by
      rw [allow_trade_closed _ _ _ hop]
    have h2 : (allow_trade cfg.cooldown envT.now stT.breaker).2 = stT.breaker := by
      rw [allow_trade_closed _ _ _ hop]
    cases hpc : preflightCheck cfg.wallet cfg.min_profit envT.pf token pd with
    | none =>
      rw [hpc] at hpf
      simp at hpf
    | some r =>
      rw [two_leg_preflight_failed cfg envT token pd force_trade stT r hA hpc]
      refine ⟨rfl, rfl, ?_⟩
      show (record_failure cfg.max_failures envT.now
        (allow_trade cfg.cooldown envT.now stT.breaker).2).failures
        = stT.breaker.failures + 1
      rw [h2, record_failure_failures]
  · intro hop hpf hpath
    have hA : (allow_trade cfg.cooldown envI.now stT.breaker).1 = true := by
      rw [allow_trade_closed _ _ _ hop]
    have h2 : (allow_trade cfg.cooldown envI.now stT.breaker).2 = stT.breaker := by
      rw [allow_trade_closed _ _ _ hop]
    rw [two_leg_after_preflight cfg envI token pd force_trade stT hA hpf]
    rw [if_pos hpath]
    show ("PREFLIGHT_FAILED",
      (⟨(allow_trade cfg.cooldown envI.now stT.breaker).2, stT.ledger⟩ : AgentState))
      = ("PREFLIGHT_FAILED", stT)
    rw [h2]
  · intro hop hpf hpath hq
    have hA : (allow_trade cfg.cooldown envQ.now stT.breaker).1 = true := by
      rw [allow_trade_closed _ _ _ hop]
    have h2 : (allow_trade cfg.cooldown envQ.now stT.breaker).2 = stT.breaker := by
      rw [allow_trade_closed _ _ _ hop]
    rw [two_leg_after_preflight cfg envQ token pd force_trade stT hA hpf]
    rw [if_neg hpath, hq]
    show ("PREFLIGHT_FAILED",
      (⟨(allow_trade cfg.cooldown envQ.now stT.breaker).2, stT.ledger⟩ : AgentState))
      = ("PREFLIGHT_FAILED", stT)
    rw [h2]
  · intro hop hpf hpath hbq hsq
    have hA : (allow_trade cfg.cooldown envS.now stT.breaker).1 = true := by
      rw [allow_trade_closed _ _ _ hop]
    have h2 : (allow_trade cfg.cooldown envS.now stT.breaker).2 = stT.breaker := by
      rw [allow_trade_closed _ _ _ hop]
    rw [two_leg_after_preflight cfg envS token pd force_trade stT hA hpf]
    rw [if_neg hpath, hbq, hsq]
    show ("PREFLIGHT_FAILED",
      (⟨(allow_trade cfg.cooldown envS.now stT.breaker).2, stT.ledger⟩ : AgentState))
      = ("PREFLIGHT_FAILED", stT)
    rw [h2]
  · intro hop hpf hpath hbq hsq hforce hlt
    have hA : (allow_trade cfg.cooldown envP.now stT.breaker).1 = true := by
      rw [allow_trade_closed _ _ _ hop]
    have h2 : (allow_trade cfg.cooldown envP.now stT.breaker).2 = stT.breaker := by
      rw [allow_trade_closed _ _ _ hop]
    rw [two_leg_after_preflight cfg envP token pd force_trade stT hA hpf]
    rw [if_neg hpath, hbq, hsq]
    show (if force_trade = false ∧ expectedProfitBnb cfg sq - gasOf cfg envP < cfg.min_profit_bnb then
        ("PREFLIGHT_FAILED",
          (⟨(allow_trade cfg.cooldown envP.now stT.breaker).2,
            stT.ledger ++ ["PREFLIGHT_FAILED"]⟩ : AgentState))
      else
        if envP.buyError = true then
          ("FAILED",
            ⟨record_failure cfg.max_failures envP.now
              (allow_trade cfg.cooldown envP.now stT.breaker).2,
              stT.ledger ++ ["FAILED"]⟩)
        else if envP.sellError = true then
          ("FAILED",
            ⟨record_failure cfg.max_failures envP.now
              (allow_trade cfg.cooldown envP.now stT.breaker).2,
              stT.ledger ++ ["FAILED"]⟩)
        else
          ("SUCCESS",
            ⟨record_success (allow_trade cfg.cooldown envP.now stT.breaker).2,
              stT.ledger ++ ["SUCCESS"]⟩)) =
      ("PREFLIGHT_FAILED", ⟨stT.breaker, stT.ledger ++ ["PREFLIGHT_FAILED"]⟩)
    rw [if_pos ⟨hforce, hlt⟩, h2]
